import Mathlib

/-!
Verification development for the conduit MCP command-bridge repository.

The definitions below are a shallow embedding of the command handlers in
`src/conduit_mcp_server/commands/figma/text/text-tools.ts` and
`src/conduit_mcp_server/commands/figma/export/css-tools.ts`, together with
spec-modelled definitions for parts of the bridge (uuid generation, the
Command Envelope codec, and the Correlation Table) whose implementation is
not part of the source tree.

JavaScript promises are embedded as `Except String` results: a resolved
promise is `Except.ok`, a rejected promise (a thrown error) is
`Except.error` carrying the error message.  The asynchronous sequential
`for ... await` loop of the SET_TEXT handler is embedded as a structurally
recursive function that consumes the configuration list in order; an
exception thrown by an awaited call aborts the recursion exactly where the
JavaScript exception would propagate to the enclosing `catch`.
-/

/-- A text configuration as validated by `SingleTextSchema` in
`text-schema.ts`: coordinates, content, and optional bounding/typography
fields.  Numeric fields are embedded as `Int` (the claims under study do
not depend on fractional values). -/
structure TextConfig where
  x : Int
  y : Int
  text : String
  width : Option Int := none
  height : Option Int := none
  fontSize : Option Int := none
  fontWeight : Option Int := none
  name : Option String := none
  parentId : Option String := none
  deriving DecidableEq, Repr

/-- The shape of a resolved `figmaClient.createText` result as consumed by
the SET_TEXT handler (lines 135-143 of text-tools.ts): the handler checks
`result.id` for a string, else `result.nodes` for an array whose members
may each carry a string id; anything else contributes no identifiers. -/
inductive CreateTextResult where
  /-- `result.id` is a string. -/
  | withId (id : String)
  /-- `result.nodes` is an array; `none` entries model nodes whose `id` is
  absent or not a string. -/
  | withNodes (nodes : List (Option String))
  /-- `result` is null/undefined or has neither a string `id` nor a
  `nodes` array. -/
  | malformed
  deriving DecidableEq, Repr

/-- Identifier extraction performed by the body of the SET_TEXT dispatch
loop: one id from `result.id`, else every string id found in
`result.nodes`, else nothing. -/
def extractIds : CreateTextResult → List String
  | .withId i => [i]
  | .withNodes ns => ns.filterMap id
  | .malformed => []

/-- Modelled from the spec: the command-identifier generator (`uuidv4` from
the external `uuid` package, not part of the source tree).  The spec
requires "a fresh command identifier (collision probability must be
negligible — a 128-bit random token is required)"; the generator is
embedded as mapping one 128-bit draw of randomness to the identifier
value. -/
def uuidv4 (randomness : Nat) : Nat := randomness % 2 ^ 128

/-- One underlying command dispatched by the SET_TEXT loop: the parameter
object `{ commandId: uuidv4(), ...textConfig }` of line 133. -/
structure DispatchedCommand where
  commandId : Nat
  config : TextConfig
  deriving DecidableEq, Repr

/-- The observable outcome of running the SET_TEXT dispatch loop: the
commands actually issued (in issue order), the node identifiers
accumulated from the commands that resolved, and the message of the first
rejection if one occurred (which aborts the loop). -/
structure LoopOutcome where
  dispatched : List DispatchedCommand
  nodeIds : List String
  error : Option String
  deriving DecidableEq, Repr

/-- The `for (const textConfig of textsArr)` loop of text-tools.ts lines
131-144, embedded with an explicit dispatch trace.  `exec` is the
behaviour of the external `figmaClient.createText`; `supply` is the stream
of randomness consumed by `uuidv4`, one draw per dispatch; `k` is the
index of the next draw.  Each element is awaited before the next is
issued; a rejection propagates immediately (the remaining elements are not
dispatched and the accumulated prefix of `nodeIds` is recorded but, as in
the code, will be discarded by the `catch`). -/
def runTextLoop (exec : DispatchedCommand → Except String CreateTextResult)
    (supply : Nat → Nat) : Nat → List TextConfig → LoopOutcome
  | _, [] => ⟨[], [], none⟩
  | k, c :: rest =>
    let cmd : DispatchedCommand := ⟨uuidv4 (supply k), c⟩
    match exec cmd with
    | .error msg => ⟨[cmd], [], some msg⟩
    | .ok res =>
      let tail := runTextLoop exec supply (k + 1) rest
      ⟨cmd :: tail.dispatched, extractIds res ++ tail.nodeIds, tail.error⟩

/-- The exact error message thrown when neither `text` nor `texts` is
supplied (text-tools.ts line 129). -/
def missingInputMsg : String :=
  "You must provide either \x27text\x27 or \x27texts\x27 as input."

/-- Argument selection and dispatch of the SET_TEXT handler (text-tools.ts
lines 123-144): `args.texts` is tested first (a present empty array is
truthy in JavaScript, so it is selected even when empty), then `args.text`
is wrapped in a one-element array, and otherwise the
missing-input error is thrown before any dispatch. -/
def setTextTrace (exec : DispatchedCommand → Except String CreateTextResult)
    (supply : Nat → Nat) (text : Option TextConfig)
    (texts : Option (List TextConfig)) : LoopOutcome :=
  match texts with
  | some arr => runTextLoop exec supply 0 arr
  | none =>
    match text with
    | some c => runTextLoop exec supply 0 [c]
    | none => ⟨[], [], some missingInputMsg⟩

/-- One member of the `content` array of a tool result. -/
structure ContentItem where
  type : String
  text : String
  deriving DecidableEq, Repr

/-- The value returned by a tool handler.  A JavaScript return object
without an `isError` field is embedded with `isError := false` (the field
is absent exactly when the handler did not take its error path). -/
structure ToolResult where
  content : List ContentItem
  isError : Bool := false
  deriving DecidableEq, Repr

/-- Result construction of the SET_TEXT handler: the success return of
lines 145-150 (one `content` item per accumulated node id, in order) or
the `catch` return of lines 151-161 (a single item carrying the error
message, with `isError: true`).  Note the `catch` discards every node id
accumulated before the failure. -/
def finishSetText (o : LoopOutcome) : ToolResult :=
  match o.error with
  | some msg => { content := [⟨"text", msg⟩], isError := true }
  | none => { content := o.nodeIds.map fun i => ⟨"text", i⟩ }

/-- The complete SET_TEXT handler (text-tools.ts lines 121-162). -/
def setTextHandler (exec : DispatchedCommand → Except String CreateTextResult)
    (supply : Nat → Nat) (text : Option TextConfig)
    (texts : Option (List TextConfig)) : ToolResult :=
  finishSetText (setTextTrace exec supply text texts)

/-- A JSON value, as manipulated by the GET_CSS_ASYNC handler and carried
as opaque command parameters/payloads by the bridge. -/
inductive Json where
  | str (s : String)
  | num (n : Int)
  | jbool (b : Bool)
  | null
  | arr (xs : List Json)
  | obj (fields : List (String × Json))

/-- JSON string escaping (quotation mark and backslash), as performed by
`JSON.stringify` on the string values occurring here. -/
def escapeJsonString (s : String) : String :=
  String.join (s.toList.map fun c =>
    if c = Char.ofNat 34 then "\\\"" else
    if c = Char.ofNat 92 then "\\\\" else String.singleton c)

mutual

/-- `JSON.stringify`, embedded for the `Json` values above. -/
def jsonToString : Json → String
  | .str s => "\"" ++ escapeJsonString s ++ "\""
  | .num n => toString n
  | .jbool b => if b then "true" else "false"
  | .null => "null"
  | .arr xs => "[" ++ jsonListToString xs ++ "]"
  | .obj fs => "\x7b" ++ jsonFieldsToString fs ++ "\x7d"

/-- Comma-separated stringification of a JSON array body. -/
def jsonListToString : List Json → String
  | [] => ""
  | [x] => jsonToString x
  | x :: y :: rest => jsonToString x ++ "," ++ jsonListToString (y :: rest)

/-- Comma-separated stringification of a JSON object body. -/
def jsonFieldsToString : List (String × Json) → String
  | [] => ""
  | [(k, v)] => "\"" ++ escapeJsonString k ++ "\":" ++ jsonToString v
  | (k, v) :: y :: rest =>
    "\"" ++ escapeJsonString k ++ "\":" ++ jsonToString v ++ "," ++
      jsonFieldsToString (y :: rest)

end

/-- Modelled from the spec: the `MCP_COMMANDS.GET_CSS_ASYNC` command name
(the `commands.js` constants module is not part of the source tree; the
handler's own `meta.operation` string fixes the value). -/
def getCssAsyncCommand : String := "get_css_async"

/-- Modelled from the spec: `ensureNodeIdIsString` from `node-utils.js`
(not part of the source tree) — coerces a node id to a string; on a value
that is already a string it returns it unchanged, which is the only case
reachable from the handler embedded here. -/
def ensureNodeIdIsString (nodeId : String) : String := nodeId

/-- Parameter object built by the GET_CSS_ASYNC handler (css-tools.ts
lines 41-43): fields are added only when the corresponding argument is
present. -/
def cssParams (nodeId format : Option String) : Json :=
  .obj ((match nodeId with
    | some n => [("nodeId", Json.str (ensureNodeIdIsString n))]
    | none => []) ++
    (match format with
    | some f => [("format", Json.str f)]
    | none => []))

/-- The `params` object embedded in the error response's `meta` field
(css-tools.ts line 63): the raw arguments, with absent (undefined) fields
dropped by `JSON.stringify`. -/
def cssMetaParams (nodeId format : Option String) : Json :=
  .obj ((match nodeId with
    | some n => [("nodeId", Json.str n)]
    | none => []) ++
    (match format with
    | some f => [("format", Json.str f)]
    | none => []))

/-- Array coercion of css-tools.ts line 45: `Array.isArray(result) ?
result : [result]`. -/
def resultsArrOf : Json → List Json
  | .arr xs => xs
  | j => [j]

/-- The success response object of css-tools.ts line 46. -/
def cssSuccessResponse (result : Json) : Json :=
  .obj [("success", .jbool true), ("results", .arr (resultsArrOf result))]

/-- The error response object of css-tools.ts lines 56-66. -/
def cssErrorResponse (msg : String) (nodeId format : Option String) : Json :=
  .obj [("success", .jbool false),
    ("error", .obj [("message", .str msg), ("results", .arr []),
      ("meta", .obj [("operation", .str "get_css_async"),
        ("params", cssMetaParams nodeId format)])])]

/-- The complete GET_CSS_ASYNC handler (css-tools.ts lines 39-76).  `exec`
is the behaviour of the external `figmaClient.executeCommand`; a rejected
promise is caught and converted into a normally-returned error response
(the returned object carries no `isError` flag on either path). -/
def getCssHandler (exec : String → Json → Except String Json)
    (nodeId format : Option String) : ToolResult :=
  match exec getCssAsyncCommand (cssParams nodeId format) with
  | .ok result => { content := [⟨"text", jsonToString (cssSuccessResponse result)⟩] }
  | .error msg =>
    { content := [⟨"text", jsonToString (cssErrorResponse msg nodeId format)⟩] }

/-- Modelled from the spec: a Command Envelope — "command identifier
(globally-unique token, caller-generated), command name (string enum),
parameters (an arbitrary structured payload), channel identifier" (the
codec itself is not part of the source tree). -/
structure CommandEnvelope where
  commandId : String
  commandName : String
  channelId : String
  parameters : Json

/-- First-match field lookup in a serialized JSON object. -/
def lookupField (fields : List (String × Json)) (key : String) : Option Json :=
  match fields with
  | [] => none
  | (k, v) :: rest => if k = key then some v else lookupField rest key

/-- String projection of a JSON value. -/
def asString : Json → Option String
  | .str s => some s
  | _ => none

/-- Modelled from the spec: serialization of a Command Envelope to the
logical wire format — the `command-request` message kind with fields
commandId, commandName, channelId, parameters (§6; "actual framing is the
responsibility of the transport"). -/
def serializeEnvelope (e : CommandEnvelope) : Json :=
  .obj [("kind", .str "command-request"), ("commandId", .str e.commandId),
    ("commandName", .str e.commandName), ("channelId", .str e.channelId),
    ("parameters", e.parameters)]

/-- Modelled from the spec: deserialization of a `command-request` wire
message back into a Command Envelope, validating the message kind and the
string typing of the identifier fields. -/
def deserializeEnvelope : Json → Option CommandEnvelope
  | .obj fields => do
    let kind ← lookupField fields "kind" >>= asString
    if kind = "command-request" then
      let cid ← lookupField fields "commandId" >>= asString
      let cname ← lookupField fields "commandName" >>= asString
      let ch ← lookupField fields "channelId" >>= asString
      let p ← lookupField fields "parameters"
      pure ⟨cid, cname, ch, p⟩
    else none
  | _ => none

/-- Status values of a Progress Event (§3 of the spec). -/
inductive ProgressStatus where
  | started
  | inProgress
  | completed
  | error
  deriving DecidableEq, Repr

/-- Modelled from the spec: a Progress Event — "command identifier,
numeric progress value (0-100), status, optional human-readable message";
an event with status `completed` doubles as the terminal message and
carries the final payload (§4.2). -/
structure ProgressEvent where
  commandId : String
  progress : Nat
  status : ProgressStatus
  message : Option String
  payload : Json

/-- A terminal transition delivered to the original caller: the pending
future resolves with a payload or rejects with a message. -/
inductive Delivery where
  | resolve (payload : Json)
  | reject (message : String)

/-- Modelled from the spec (§4.2): the terminal content of a progress
event, if any — `completed` resolves with the payload, `error` rejects
with the event's message, and `started`/`in_progress` are forwarded only
to the Progress Relay. -/
def terminalDelivery (e : ProgressEvent) : Option Delivery :=
  match e.status with
  | .completed => some (.resolve e.payload)
  | .error => some (.reject (e.message.getD ""))
  | _ => none

/-- Modelled from the spec (§4.2): the Correlation Table processing one
incoming event.  The table state is the list of command identifiers with
a Pending Invocation.  A terminal event for a pending identifier removes
the entry and delivers exactly one transition; a terminal event for an
identifier with no pending entry is dropped silently; non-terminal events
never touch the table. -/
def processEvent (pending : List String) (e : ProgressEvent) :
    List String × Option (String × Delivery) :=
  match terminalDelivery e with
  | some d =>
    if e.commandId ∈ pending then
      (pending.erase e.commandId, some (e.commandId, d))
    else (pending, none)
  | none => (pending, none)

/-- The deliveries produced by the Correlation Table over a sequence of
incoming events, in order. -/
def processEvents (pending : List String) :
    List ProgressEvent → List (String × Delivery)
  | [] => []
  | e :: rest =>
    match processEvent pending e with
    | (p, some x) => x :: processEvents p rest
    | (p, none) => processEvents p rest

/-- The deliveries addressed to one command identifier. -/
def deliveriesFor (cid : String) (ds : List (String × Delivery)) : List Delivery :=
  ds.filterMap fun x => if x.1 = cid then some x.2 else none

/-- A concrete text configuration used in concrete evaluations. -/
def cfgA : TextConfig := { x := 0, y := 0, text := "A" }

/-- A concrete text configuration whose dispatch will be made to fail. -/
def cfgB : TextConfig := { x := 1, y := 1, text := "B" }

/-- A concrete text configuration submitted after the failing one. -/
def cfgC : TextConfig := { x := 2, y := 2, text := "C" }

/-- A concrete `createText` behaviour: the command for configuration `B`
rejects with message "boom"; every other command resolves with a single
node id derived from the configuration's text. -/
def execFailB : DispatchedCommand → Except String CreateTextResult :=
  fun cmd =>
    if cmd.config.text = "B" then .error "boom"
    else .ok (.withId ("id-" ++ cmd.config.text))

/-- A concrete `createText` behaviour that resolves every command with a
container result carrying two node ids. -/
def execTwoNodes : DispatchedCommand → Except String CreateTextResult :=
  fun _ => .ok (.withNodes [some "n1", some "n2"])

/-- A concrete `createText` behaviour that rejects every command. -/
def execBoom : DispatchedCommand → Except String CreateTextResult :=
  fun _ => .error "boom"

/-- A concrete `executeCommand` behaviour that rejects every command. -/
def execCssBoom : String → Json → Except String Json :=
  fun _ _ => .error "css failed"

/-- A concrete `executeCommand` behaviour that resolves every command with
a non-array JSON object. -/
def execCssOk : String → Json → Except String Json :=
  fun _ _ => .ok (.obj [("css", .str "color: red")])

/-- The dispatch list the SET_TEXT loop issues for a configuration list
when no element fails: one command per element, in order, consuming one
randomness draw per element starting at index `k`. -/
def expectedDispatches (supply : Nat → Nat) (k : Nat) :
    List TextConfig → List DispatchedCommand
  | [] => []
  | c :: rest => ⟨uuidv4 (supply k), c⟩ :: expectedDispatches supply (k + 1) rest

/-- Claim C8: when neither `text` nor `texts` is supplied, the SET_TEXT
handler dispatches no underlying command and returns a result with
`isError` true whose single content item carries the message "You must
provide either 'text' or 'texts' as input.". -/
theorem setText_missing_input
    (exec : DispatchedCommand → Except String CreateTextResult)
    (supply : Nat → Nat) :
    (setTextTrace exec supply none none).dispatched = [] ∧
    setTextHandler exec supply none none =
      { content := [⟨"text", missingInputMsg⟩], isError := true } :=
  ⟨rfl, rfl⟩

/-- Claim C9: when both `text` and `texts` are supplied, `texts` takes
precedence and `text` is ignored; and for `texts` equal to the empty
array the handler returns a non-error result with empty content while
dispatching no underlying command. -/
theorem setText_texts_precedence
    (exec : DispatchedCommand → Except String CreateTextResult)
    (supply : Nat → Nat) (t : TextConfig) (ts : List TextConfig)
    (t' : Option TextConfig) :
    setTextTrace exec supply (some t) (some ts) =
      setTextTrace exec supply none (some ts) ∧
    setTextHandler exec supply (some t) (some ts) =
      setTextHandler exec supply none (some ts) ∧
    (setTextTrace exec supply t' (some [])).dispatched = [] ∧
    setTextHandler exec supply t' (some []) =
      { content := [], isError := false } :=
  ⟨rfl, rfl, rfl, rfl⟩

/-- Claim C7: serializing a Command Envelope to the logical wire format
and deserializing it yields a structurally equal envelope — command id,
name, channel id and parameters are all preserved. -/
theorem envelope_roundtrip (e : CommandEnvelope) :
    deserializeEnvelope (serializeEnvelope e) = some e := by
  cases e
  rfl

/-- Claim C4 counterexample: a singular configuration whose underlying
command resolves with a two-node container result produces a two-element
content, not a single-element result. -/
theorem setText_singular_two_elements :
    (setTextHandler execTwoNodes (fun _ => 0) (some cfgA) none).content.length = 2 ∧
    ¬ (setTextHandler execTwoNodes (fun _ => 0) (some cfgA) none).content.length = 1 := by
  decide

/-- Claim C4 (amended): a singular configuration dispatches exactly one
underlying command, and the returned result aggregates exactly that
command's extracted identifiers — a single-element result when the
underlying result carries one id, possibly zero or many for container
results — or the failure when the command rejects. -/
theorem setText_singular
    (exec : DispatchedCommand → Except String CreateTextResult)
    (supply : Nat → Nat) (cfg : TextConfig) :
    (setTextTrace exec supply (some cfg) none).dispatched =
      [⟨uuidv4 (supply 0), cfg⟩] ∧
    setTextHandler exec supply (some cfg) none =
      (match exec ⟨uuidv4 (supply 0), cfg⟩ with
       | .ok r => { content := (extractIds r).map fun i => ⟨"text", i⟩ }
       | .error m => { content := [⟨"text", m⟩], isError := true }) := by
  cases h : exec ⟨uuidv4 (supply 0), cfg⟩ <;>
    simp [setTextTrace, setTextHandler, runTextLoop, finishSetText, h]

/-- Claim C5: a failure of an underlying command never escapes a handler —
the SET_TEXT handler converts the first rejection into a returned
`isError` result carrying the message verbatim, and the GET_CSS_ASYNC
handler converts a rejection into a normally-returned (non-error-flagged)
response embedding the message; both handlers are total functions of
their inputs, so no failure crashes the bridge or is silently dropped. -/
theorem handlers_represent_failures
    (exec : DispatchedCommand → Except String CreateTextResult)
    (supply : Nat → Nat) (text : Option TextConfig)
    (texts : Option (List TextConfig))
    (execC : String → Json → Except String Json)
    (nodeId format : Option String) :
    (∀ m, (setTextTrace exec supply text texts).error = some m →
      setTextHandler exec supply text texts =
        { content := [⟨"text", m⟩], isError := true }) ∧
    (∀ m, execC getCssAsyncCommand (cssParams nodeId format) = .error m →
      getCssHandler execC nodeId format =
        { content := [⟨"text", jsonToString (cssErrorResponse m nodeId format)⟩],
          isError := false }) := by
  constructor
  · intro m h
    simp [setTextHandler, finishSetText, h]
  · intro m h
    simp [getCssHandler, h]

/-- Witness for `handlers_represent_failures` at concrete failing
behaviours. -/
theorem handlers_represent_failures_witness :
    (setTextTrace execBoom (fun _ => 0) none (some [cfgA])).error = some "boom" ∧
    setTextHandler execBoom (fun _ => 0) none (some [cfgA]) =
      { content := [⟨"text", "boom"⟩], isError := true } ∧
    execCssBoom getCssAsyncCommand (cssParams none none) = .error "css failed" ∧
    getCssHandler execCssBoom none none =
      { content := [⟨"text", jsonToString (cssErrorResponse "css failed" none none)⟩],
        isError := false } :=
  ⟨rfl,
   (handlers_represent_failures execBoom (fun _ => 0) none (some [cfgA])
     execCssBoom none none).1 "boom" rfl,
   rfl,
   (handlers_represent_failures execBoom (fun _ => 0) none (some [cfgA])
     execCssBoom none none).2 "css failed" rfl⟩

/-- When every dispatch resolves, the SET_TEXT loop issues exactly one
command per configuration, in order, and accumulates the extracted
identifiers in the same order. -/
theorem runTextLoop_allOk (f : DispatchedCommand → CreateTextResult)
    (supply : Nat → Nat) :
    ∀ (k : Nat) (cfgs : List TextConfig),
    runTextLoop (fun c => .ok (f c)) supply k cfgs =
      ⟨expectedDispatches supply k cfgs,
       ((expectedDispatches supply k cfgs).map fun c => extractIds (f c)).flatten,
       none⟩
  | _, [] => rfl
  | k, c :: rest => by
    simp [runTextLoop, expectedDispatches, runTextLoop_allOk f supply (k + 1) rest]

/-- The expected dispatch list carries exactly the input configurations,
in order. -/
theorem expectedDispatches_map_config (supply : Nat → Nat) :
    ∀ (k : Nat) (cfgs : List TextConfig),
    (expectedDispatches supply k cfgs).map DispatchedCommand.config = cfgs
  | _, [] => rfl
  | k, c :: rest => by
    simp [expectedDispatches, expectedDispatches_map_config supply (k + 1) rest]

/-- Claim C2 counterexample: in a batch of three configurations whose
second dispatch rejects, only two underlying commands are issued — the
third element receives no dispatch, so the batch does not issue exactly
one command per element. -/
theorem setText_batch_not_one_per_element :
    ((setTextTrace execFailB (fun i => i) none
        (some [cfgA, cfgB, cfgC])).dispatched.map DispatchedCommand.config) =
      [cfgA, cfgB] ∧
    ([cfgA, cfgB] : List TextConfig) ≠ [cfgA, cfgB, cfgC] := by
  decide

/-- Claim C2 (amended): when every element's underlying command resolves,
the SET_TEXT handler dispatches exactly one command per element, in
sequence order (awaiting each before issuing the next, embedded here as
the sequential recursion), and returns the per-element identifier lists
flattened in exactly the input order; when an element rejects, dispatching
stops at the rejecting element. -/
theorem setText_batch_order (f : DispatchedCommand → CreateTextResult)
    (supply : Nat → Nat) (cfgs : List TextConfig) :
    (setTextTrace (fun c => .ok (f c)) supply none (some cfgs)).dispatched =
      expectedDispatches supply 0 cfgs ∧
    (expectedDispatches supply 0 cfgs).map DispatchedCommand.config = cfgs ∧
    setTextHandler (fun c => .ok (f c)) supply none (some cfgs) =
      { content :=
          (((expectedDispatches supply 0 cfgs).map fun c => extractIds (f c)).flatten).map
            fun i => ⟨"text", i⟩ } := by
  refine ⟨?_, expectedDispatches_map_config supply 0 cfgs, ?_⟩
  · rw [show setTextTrace (fun c => .ok (f c)) supply none (some cfgs) =
      runTextLoop (fun c => .ok (f c)) supply 0 cfgs from rfl,
      runTextLoop_allOk f supply 0 cfgs]
  · rw [show setTextHandler (fun c => .ok (f c)) supply none (some cfgs) =
      finishSetText (runTextLoop (fun c => .ok (f c)) supply 0 cfgs) from rfl,
      runTextLoop_allOk f supply 0 cfgs]
    rfl

/-- When the commands dispatched for a prefix of the configuration list
all resolve and the next one rejects, the SET_TEXT loop dispatches
exactly the prefix commands plus the rejecting one (nothing after it) and
records the rejection message. -/
theorem runTextLoop_fail_at
    (exec : DispatchedCommand → Except String CreateTextResult)
    (supply : Nat → Nat) :
    ∀ (k : Nat) (pre : List TextConfig) (bad : TextConfig)
      (post : List TextConfig) (msg : String),
    (∀ c ∈ expectedDispatches supply k pre, ∃ r, exec c = .ok r) →
    exec ⟨uuidv4 (supply (k + pre.length)), bad⟩ = .error msg →
    (runTextLoop exec supply k (pre ++ bad :: post)).dispatched =
      expectedDispatches supply k pre ++
        [⟨uuidv4 (supply (k + pre.length)), bad⟩] ∧
    (runTextLoop exec supply k (pre ++ bad :: post)).error = some msg
  | k, [], bad, post, msg, _, hbad => by
    have hb : exec ⟨uuidv4 (supply k), bad⟩ = .error msg := by simpa using hbad
    simp [runTextLoop, expectedDispatches, hb]
  | k, c :: pre', bad, post, msg, hok, hbad => by
    obtain ⟨r, hr⟩ := hok ⟨uuidv4 (supply k), c⟩
      (by simp only [expectedDispatches]; exact List.mem_cons_self _ _)
    have hlen : k + (c :: pre').length = (k + 1) + pre'.length := by
      simp only [List.length_cons]
      omega
    rw [hlen] at hbad
    have ih := runTextLoop_fail_at exec supply (k + 1) pre' bad post msg
      (fun d hd => hok d
        (by simp only [expectedDispatches]; exact List.mem_cons_of_mem _ hd))
      hbad
    rw [hlen]
    simp [runTextLoop, expectedDispatches, hr, ih.1, ih.2]

/-- Claim C1 counterexample: a batch of three configurations whose second
dispatch rejects returns only the failure — the identifier already
produced by the first element ("id-A") does not appear in the returned
aggregate, and the third element is never dispatched. -/
theorem setText_failure_drops_results :
    setTextHandler execFailB (fun i => i) none (some [cfgA, cfgB, cfgC]) =
      { content := [⟨"text", "boom"⟩], isError := true } ∧
    ((setTextTrace execFailB (fun i => i) none
        (some [cfgA, cfgB, cfgC])).dispatched.map DispatchedCommand.config) =
      [cfgA, cfgB] ∧
    (∀ item ∈ (setTextHandler execFailB (fun i => i) none
        (some [cfgA, cfgB, cfgC])).content, item.text ≠ "id-A") := by
  decide

/-- Claim C1 (amended): when the k-th element of a batch fails, the
handler aborts — every element after the k-th is left unattempted and the
results already produced for elements before the k-th are discarded
rather than returned; the handler returns only the failure message with
`isError` true. -/
theorem setText_failure_aborts
    (exec : DispatchedCommand → Except String CreateTextResult)
    (supply : Nat → Nat) (pre : List TextConfig) (bad : TextConfig)
    (post : List TextConfig) (msg : String)
    (hok : ∀ c ∈ expectedDispatches supply 0 pre, ∃ r, exec c = .ok r)
    (hbad : exec ⟨uuidv4 (supply pre.length), bad⟩ = .error msg) :
    (setTextTrace exec supply none (some (pre ++ bad :: post))).dispatched =
      expectedDispatches supply 0 pre ++
        [⟨uuidv4 (supply pre.length), bad⟩] ∧
    setTextHandler exec supply none (some (pre ++ bad :: post)) =
      { content := [⟨"text", msg⟩], isError := true } := by
  have h := runTextLoop_fail_at exec supply 0 pre bad post msg hok
    (by simpa using hbad)
  refine ⟨by simpa using h.1, ?_⟩
  simp [setTextHandler, setTextTrace, finishSetText, h.2]

/-- Witness for `setText_failure_aborts` at a concrete batch whose
second element rejects. -/
theorem setText_failure_aborts_witness :
    setTextHandler execFailB (fun i => i) none (some ([cfgA] ++ cfgB :: [cfgC])) =
      { content := [⟨"text", "boom"⟩], isError := true } := by
  have h := setText_failure_aborts execFailB (fun i => i) [cfgA] cfgB [cfgC] "boom"
    (by
      intro c hc
      simp [expectedDispatches] at hc
      exact ⟨.withId "id-A", by rw [hc]; rfl⟩)
    rfl
  exact h.2

/-- The command identifiers issued by the SET_TEXT loop are the generator
images of consecutive randomness draws: for some number `m` of elements
actually dispatched (at most the batch size), the id trace equals
`uuidv4` applied to draws `k, k+1, ..., k+m-1`. -/
theorem runTextLoop_dispatched_ids
    (exec : DispatchedCommand → Except String CreateTextResult)
    (supply : Nat → Nat) :
    ∀ (k : Nat) (cfgs : List TextConfig),
    ∃ m, m ≤ cfgs.length ∧
      (runTextLoop exec supply k cfgs).dispatched.map DispatchedCommand.commandId =
        (List.range' k m).map fun i => uuidv4 (supply i)
  | _, [] => ⟨0, by simp [runTextLoop]⟩
  | k, c :: rest => by
    cases h : exec ⟨uuidv4 (supply k), c⟩ with
    | error msg =>
      exact ⟨1, by simp, by simp [runTextLoop, h, List.range']⟩
    | ok res =>
      obtain ⟨m, hm, heq⟩ := runTextLoop_dispatched_ids exec supply (k + 1) rest
      exact ⟨m + 1, by simpa using Nat.succ_le_succ hm,
        by simp [runTextLoop, h, List.range', heq]⟩

/-- Every command identifier issued by the SET_TEXT loop lies in the
128-bit identifier space. -/
theorem runTextLoop_commandId_lt
    (exec : DispatchedCommand → Except String CreateTextResult)
    (supply : Nat → Nat) :
    ∀ (k : Nat) (cfgs : List TextConfig),
    ∀ c ∈ (runTextLoop exec supply k cfgs).dispatched, c.commandId < 2 ^ 128
  | _, [], _, hc => by simp [runTextLoop] at hc
  | k, cfg :: rest, c, hc => by
    have hpos : 0 < 2 ^ 128 := Nat.pos_pow_of_pos 128 (by omega)
    cases h : exec ⟨uuidv4 (supply k), cfg⟩ with
    | error msg =>
      simp [runTextLoop, h] at hc
      rw [hc]
      exact Nat.mod_lt _ hpos
    | ok res =>
      simp [runTextLoop, h] at hc
      rcases hc with hc | hc
      · rw [hc]
        exact Nat.mod_lt _ hpos
      · exact runTextLoop_commandId_lt exec supply (k + 1) rest c hc

/-- Claim C6: every dispatch of the SET_TEXT batch loop (one per element)
consumes a fresh draw of randomness and carries the 128-bit token
generated from it, so that as long as the draws generate distinct tokens
(which fails only with negligible probability for 128-bit random draws)
the dispatched commands carry pairwise distinct identifiers, each lying
in the 128-bit space. -/
theorem setText_command_ids_fresh
    (exec : DispatchedCommand → Except String CreateTextResult)
    (supply : Nat → Nat) (cfgs : List TextConfig)
    (hinj : ∀ i j, i < cfgs.length → j < cfgs.length →
      uuidv4 (supply i) = uuidv4 (supply j) → i = j) :
    ((setTextTrace exec supply none (some cfgs)).dispatched.map
      DispatchedCommand.commandId).Nodup ∧
    ∀ c ∈ (setTextTrace exec supply none (some cfgs)).dispatched,
      c.commandId < 2 ^ 128 := by
  obtain ⟨m, hm, heq⟩ := runTextLoop_dispatched_ids exec supply 0 cfgs
  constructor
  · show ((runTextLoop exec supply 0 cfgs).dispatched.map
      DispatchedCommand.commandId).Nodup
    rw [heq, ← List.range_eq_range']
    refine List.Nodup.map_on ?_ (List.nodup_range m)
    intro x hx y hy hxy
    exact hinj x y (lt_of_lt_of_le (List.mem_range.mp hx) hm)
      (lt_of_lt_of_le (List.mem_range.mp hy) hm) hxy
  · intro c hc
    exact runTextLoop_commandId_lt exec supply 0 cfgs c hc

/-- Witness for `setText_command_ids_fresh` at a concrete two-element
batch with distinct randomness draws. -/
theorem setText_command_ids_fresh_witness :
    ((setTextTrace execFailB (fun i => i) none
        (some [cfgA, cfgC])).dispatched.map DispatchedCommand.commandId).Nodup ∧
    ∀ c ∈ (setTextTrace execFailB (fun i => i) none
        (some [cfgA, cfgC])).dispatched, c.commandId < 2 ^ 128 :=
  setText_command_ids_fresh execFailB (fun i => i) [cfgA, cfgC]
    (by
      intro i j hi hj h
      have hi' : i < 2 := by simpa using hi
      have hj' : j < 2 := by simpa using hj
      interval_cases i <;> interval_cases j <;> revert h <;> decide)

/-- An identifier with no Pending Invocation never receives a delivery:
terminal events for it are dropped silently, whatever else the table
processes. -/
theorem deliveriesFor_not_pending (cid : String) :
    ∀ (pending : List String) (evs : List ProgressEvent),
    cid ∉ pending → deliveriesFor cid (processEvents pending evs) = []
  | _, [], _ => rfl
  | pending, e :: rest, h => by
    simp only [processEvents, processEvent]
    cases td : terminalDelivery e with
    | none => exact deliveriesFor_not_pending cid pending rest h
    | some d =>
      by_cases hmem : e.commandId ∈ pending
      · have hne : e.commandId ≠ cid := fun hedq => h (hedq ▸ hmem)
        simp only [hmem, if_true, deliveriesFor, List.filterMap_cons, hne, if_false]
        exact deliveriesFor_not_pending cid _ rest
          (fun hc => h (List.mem_of_mem_erase hc))
      · simp only [hmem, if_false]
        exact deliveriesFor_not_pending cid pending rest h

/-- Claim C3: for every command identifier with at most one Pending
Invocation registered, at most one terminal transition is ever delivered
to the original caller over any incoming event sequence — the first
`completed`/`error` event resolves or rejects the pending call and any
later terminal event for the same identifier is a no-op. -/
theorem correlation_at_most_one_delivery :
    ∀ (pending : List String) (evs : List ProgressEvent) (cid : String),
    pending.count cid ≤ 1 →
    (deliveriesFor cid (processEvents pending evs)).length ≤ 1
  | pending, [], cid, _ => by simp [processEvents, deliveriesFor]
  | pending, e :: rest, cid, h => by
    simp only [processEvents, processEvent]
    cases td : terminalDelivery e with
    | none => exact correlation_at_most_one_delivery pending rest cid h
    | some d =>
      by_cases hmem : e.commandId ∈ pending
      · by_cases hcid : e.commandId = cid
        · subst hcid
          have hcount : pending.count e.commandId = 1 :=
            Nat.le_antisymm h (List.count_pos_iff.mpr hmem)
          have hzero : (pending.erase e.commandId).count e.commandId = 0 := by
            rw [List.count_erase_self, hcount]
          have hnotmem : e.commandId ∉ pending.erase e.commandId :=
            List.count_eq_zero.mp hzero
          have hrest := deliveriesFor_not_pending e.commandId _ rest hnotmem
          simp only [deliveriesFor] at hrest
          simp only [hmem, if_true, deliveriesFor, List.filterMap_cons, if_pos rfl,
            hrest]
          simp
        · simp only [hmem, if_true, deliveriesFor, List.filterMap_cons, hcid, if_false]
          have hcount : (pending.erase e.commandId).count cid = pending.count cid :=
            List.count_erase_of_ne (fun hq => hcid hq.symm) pending
          exact correlation_at_most_one_delivery _ rest cid (hcount ▸ h)
      · simp only [hmem, if_false]
        exact correlation_at_most_one_delivery pending rest cid h

/-- Witness for `correlation_at_most_one_delivery`: a single pending
identifier receiving two `completed` events is delivered at most once. -/
theorem correlation_at_most_one_delivery_witness :
    (["cmd-1"] : List String).count "cmd-1" ≤ 1 ∧
    (deliveriesFor "cmd-1" (processEvents ["cmd-1"]
      [⟨"cmd-1", 100, .completed, none, .null⟩,
       ⟨"cmd-1", 100, .completed, none, .null⟩])).length ≤ 1 :=
  ⟨by decide,
   correlation_at_most_one_delivery ["cmd-1"]
     [⟨"cmd-1", 100, .completed, none, .null⟩,
      ⟨"cmd-1", 100, .completed, none, .null⟩] "cmd-1" (by decide)⟩

/-- Claim C10: every GET_CSS_ASYNC invocation returns exactly one content
item and is never flagged as an error.  When `executeCommand` resolves,
the item's text is the stringification of a JSON object with `success:
true` whose `results` field is an array; when it rejects, of a JSON
object with `success: false` whose `error` object passes the message
through verbatim with an empty `results` array.  The final conjunct
states the wrapping rule: a non-array result becomes a one-element
array. -/
theorem getCss_response_shape
    (execC : String → Json → Except String Json)
    (nodeId format : Option String) :
    (getCssHandler execC nodeId format).content.length = 1 ∧
    (getCssHandler execC nodeId format).isError = false ∧
    (∀ r, execC getCssAsyncCommand (cssParams nodeId format) = .ok r →
      getCssHandler execC nodeId format =
        { content := [⟨"text", jsonToString (.obj [("success", .jbool true),
            ("results", .arr (resultsArrOf r))])⟩],
          isError := false }) ∧
    (∀ m, execC getCssAsyncCommand (cssParams nodeId format) = .error m →
      getCssHandler execC nodeId format =
        { content := [⟨"text", jsonToString (.obj [("success", .jbool false),
            ("error", .obj [("message", .str m), ("results", .arr []),
              ("meta", .obj [("operation", .str "get_css_async"),
                ("params", cssMetaParams nodeId format)])])])⟩],
          isError := false }) ∧
    (∀ j : Json, (∃ xs, j = Json.arr xs ∧ resultsArrOf j = xs) ∨
      resultsArrOf j = [j]) := by
  refine ⟨?_, ?_, ?_, ?_, ?_⟩
  · cases h : execC getCssAsyncCommand (cssParams nodeId format) <;>
      simp [getCssHandler, h]
  · cases h : execC getCssAsyncCommand (cssParams nodeId format) <;>
      simp [getCssHandler, h]
  · intro r h
    simp [getCssHandler, h, cssSuccessResponse]
  · intro m h
    simp [getCssHandler, h, cssErrorResponse]
  · intro j
    cases j <;> simp [resultsArrOf]

/-- Witness for `getCss_response_shape` at one resolving and one
rejecting `executeCommand` behaviour. -/
theorem getCss_response_shape_witness :
    execCssOk getCssAsyncCommand (cssParams none none) =
      .ok (.obj [("css", .str "color: red")]) ∧
    getCssHandler execCssOk none none =
      { content := [⟨"text", jsonToString (.obj [("success", .jbool true),
          ("results", .arr (resultsArrOf (.obj [("css", .str "color: red")])))])⟩],
        isError := false } ∧
    execCssBoom getCssAsyncCommand (cssParams none none) = .error "css failed" ∧
    getCssHandler execCssBoom none none =
      { content := [⟨"text", jsonToString (.obj [("success", .jbool false),
          ("error", .obj [("message", .str "css failed"), ("results", .arr []),
            ("meta", .obj [("operation", .str "get_css_async"),
              ("params", cssMetaParams none none)])])])⟩],
        isError := false } :=
  ⟨rfl,
   (getCss_response_shape execCssOk none none).2.2.1
     (.obj [("css", .str "color: red")]) rfl,
   rfl,
   (getCss_response_shape execCssBoom none none).2.2.2.1 "css failed" rfl⟩
